import Mathlib

/-!
Verification development for the reference-processing pipeline of the
Wiki-References-Extractor repository.

The definitions below are a shallow embedding of the TypeScript source:

* `src/lib/pdf.ts` — `detectAccessBlocker`, `isPdfUrl`, `downloadPdf`,
  `renderUrlToPdf`, `sanitizeFilename`;
* `src/app/api/process-references-batch/route.ts` — `processSingleReference`
  and the batch `POST` handler;
* `src/app/api/create-zip/route.ts` — the zip `POST` handler.

Effects of the JavaScript platform (the `fetch` call, the headless-browser
API, timers) are modelled by environment values describing the outcome of
each external call; the control flow around those calls is translated
directly from the source.  Machine strings are modelled as Lean `String`
(a list of characters); the JavaScript string operations used by the source
(`toLowerCase`, `includes`, `endsWith`, `replace`, `trim`, `split`,
`substring`) are given explicit lowercase-ASCII / list-based models below.
-/

/-! ## String primitives (models of the JavaScript string operations) -/

/-- Model of lowercasing one character, as `String.prototype.toLowerCase`
acts on ASCII; non-ASCII letters are left unchanged (none of the patterns
in the source contain non-ASCII letters). -/
def lowerChar (c : Char) : Char :=
  if 65 ≤ c.toNat ∧ c.toNat ≤ 90 then Char.ofNat (c.toNat + 32) else c

/-- Model of `String.prototype.toLowerCase` (ASCII range). -/
def sLower (s : String) : String := ⟨s.data.map lowerChar⟩

/-- Containment of one character list inside another, used to model
`String.prototype.includes`. -/
def listIsInfix (n : List Char) : List Char → Bool
  | [] => n.isEmpty
  | c :: t => n.isPrefixOf (c :: t) || listIsInfix n t

/-- Model of `hay.includes(needle)`. -/
def sIncludes (hay needle : String) : Bool := listIsInfix needle.data hay.data

/-- Model of `s.endsWith(suffix)`. -/
def sEndsWith (s suffix : String) : Bool := suffix.data.isSuffixOf s.data

/-- Characters removed by `String.prototype.trim` (the ASCII whitespace
actually occurring in the strings this program manipulates). -/
def isJsSpace (c : Char) : Bool :=
  c == ' ' || c == '\t' || c == '\n' || c == '\r'

/-- Model of `String.prototype.trim`. -/
def jsTrim (s : String) : String :=
  ⟨((s.data.dropWhile isJsSpace).reverse.dropWhile isJsSpace).reverse⟩

/-- Model of `s.replace(pat, "")` with a plain-string pattern: JavaScript
`replace` with a string first argument removes only the first occurrence. -/
def removeFirst (pat : List Char) : List Char → List Char
  | [] => []
  | c :: t =>
    if pat.isPrefixOf (c :: t) then (c :: t).drop pat.length
    else c :: removeFirst pat t

/-- Decimal digit character. -/
def digitChar (d : Nat) : Char := Char.ofNat (48 + d)

/-- Fuel-driven decimal rendering of a natural number (most significant
digit first), accumulating onto `acc`. -/
def natToCharsRec : Nat → Nat → List Char → List Char
  | 0, _, acc => acc
  | fuel + 1, n, acc =>
    if n < 10 then digitChar n :: acc
    else natToCharsRec fuel (n / 10) (digitChar (n % 10) :: acc)

/-- Model of the JavaScript template interpolation of an integer id
(`${id}`): its decimal digits. -/
def natRepr (n : Nat) : String := ⟨natToCharsRec (n + 1) n []⟩

/-! ## Blocker detector (`detectAccessBlocker`, src/lib/pdf.ts lines 14-53) -/

/-- Embedding of `BLOCK_PAGE_PATTERNS`.  Each case-insensitive regular
expression of the source is a finite alternation of literal phrases; it is
represented here by the list of its lowercase alternatives, matched by
substring containment against the lowercased page content (the source tests
the regex against `html.toLowerCase()`). -/
def BLOCK_PAGE_PATTERNS : List (List String × String) := [
  (["please confirm you are human"], "Publisher requires human verification (CAPTCHA)."),
  (["slide right to complete the puzzle"], "Publisher requires human verification (slider CAPTCHA)."),
  (["complete the security check"], "Publisher requires a security verification (CAPTCHA)."),
  (["press and hold"], "Publisher requires human verification (press-and-hold challenge)."),
  (["verify you are human", "verify you are a human", "verify you are robot",
    "verify you are a robot", "verify you re human", "verify you re a human",
    "verify you re robot", "verify you re a robot"],
   "Publisher requires human verification (CAPTCHA)."),
  (["before we can let you continue"], "Publisher is gating the content with a verification step."),
  (["unusual traffic"], "Publisher detected unusual traffic and blocked automated access."),
  (["access denied"], "Publisher denied access (likely due to automated detection)."),
  (["article not found"], "Publisher reports this article is not available or was removed."),
  (["page not found"], "Publisher reports this page was not found (404)."),
  (["not found on this website"], "Publisher reports this page was not found on the site."),
  (["cf-captcha", "cf-chl"], "Cloudflare CAPTCHA challenge detected."),
  (["bot detection"], "Publisher triggered bot detection and blocked access.")]

/-- Reason produced when the resolved URL itself carries a verification
marker (src/lib/pdf.ts line 35). -/
def urlRedirectReason : String := "Publisher redirected to a verification / CAPTCHA page."

/-- Reason produced by the CAPTCHA-widget marker check
(src/lib/pdf.ts line 49). -/
def widgetReason : String := "Publisher is showing a CAPTCHA widget."

/-- Whether one pattern row (alternatives and associated reason) matches the
lowercased content. -/
def patternMatches (p : List String × String) (lowerHtml : String) : Bool :=
  p.1.any (fun a => sIncludes lowerHtml a)

/-- First-match scan over the ordered pattern list
(src/lib/pdf.ts lines 38-42). -/
def findBlockReason : List (List String × String) → String → Option String
  | [], _ => none
  | p :: rest, lowerHtml =>
    if patternMatches p lowerHtml then some p.2
    else findBlockReason rest lowerHtml

/-- Whether the lowercased resolved URL contains one of the verification
markers (src/lib/pdf.ts line 34). -/
def urlHasBlockMarker (lowerUrl : String) : Bool :=
  sIncludes lowerUrl "captcha" || sIncludes lowerUrl "verify" || sIncludes lowerUrl "blocked"

/-- Embedding of `detectAccessBlocker` (src/lib/pdf.ts lines 30-53). -/
def detectAccessBlocker (html pageUrl : String) : Option String :=
  let lowerHtml := sLower html
  let lowerUrl := sLower pageUrl
  if urlHasBlockMarker lowerUrl then some urlRedirectReason
  else
    match findBlockReason BLOCK_PAGE_PATTERNS lowerHtml with
    | some r => some r
    | none =>
      if sIncludes lowerHtml "g-recaptcha" || sIncludes lowerHtml "hcaptcha" ||
         sIncludes lowerHtml "cf-turnstile" then some widgetReason
      else none

/-! ## URL parsing (model of the WHATWG `new URL` constructor) -/

/-- Parsed URL, holding the components the program reads
(`pathname` is the only one consulted by the source). -/
structure URLModel where
  scheme : String
  host : String
  pathname : String
  search : String
  fragment : String
deriving DecidableEq

/-- Whether a character is an ASCII letter. -/
def isAsciiLetter (c : Char) : Bool :=
  (65 ≤ c.toNat && c.toNat ≤ 90) || (97 ≤ c.toNat && c.toNat ≤ 122)

/-- Whether a character may occur in a URL scheme after the first letter. -/
def isSchemeChar (c : Char) : Bool :=
  isAsciiLetter c || c.isDigit || c == '+' || c == '-' || c == '.'

/-- Longest prefix before the first character satisfying `p`. -/
def takeUntil (p : Char → Bool) : List Char → List Char
  | [] => []
  | c :: t => if p c then [] else c :: takeUntil p t

/-- Remainder from the first character satisfying `p` (inclusive). -/
def dropUntil (p : Char → Bool) : List Char → List Char
  | [] => []
  | c :: t => if p c then c :: t else dropUntil p t

/-- Model of the platform URL constructor `new URL(s)` as used by this
program: a well-formed URL needs a scheme (letter followed by scheme
characters, then a colon); with an authority (`//`), the authority must be
non-empty and the path runs from the first slash after it to the query or
fragment, defaulting to the root path; without an authority the remainder
up to the query or fragment is an opaque path.  `none` models the
constructor throwing (a malformed URL). -/
def parseURL (s : String) : Option URLModel :=
  let cs := s.data
  let schemeCs := takeUntil (fun c => c == ':') cs
  match dropUntil (fun c => c == ':') cs with
  | [] => none
  | _ :: rest =>
    if schemeCs.isEmpty then none
    else if !(isAsciiLetter (schemeCs.headD 'a')) then none
    else if !(schemeCs.all isSchemeChar) then none
    else
      match rest with
      | '/' :: '/' :: rest2 =>
        let stopAuth : Char → Bool := fun c => c == '/' || c == '?' || c == '#'
        let auth := takeUntil stopAuth rest2
        let afterAuth := dropUntil stopAuth rest2
        if auth.isEmpty then none
        else
          let stopPath : Char → Bool := fun c => c == '?' || c == '#'
          let path := takeUntil stopPath afterAuth
          let afterPath := dropUntil stopPath afterAuth
          some { scheme := ⟨schemeCs⟩, host := ⟨auth⟩,
                 pathname := if path.isEmpty then "/" else ⟨path⟩,
                 search := ⟨takeUntil (fun c => c == '#') afterPath⟩,
                 fragment := ⟨dropUntil (fun c => c == '#') afterPath⟩ }
      | _ =>
        let stopPath : Char → Bool := fun c => c == '?' || c == '#'
        let path := takeUntil stopPath rest
        let afterPath := dropUntil stopPath rest
        some { scheme := ⟨schemeCs⟩, host := "",
               pathname := ⟨path⟩,
               search := ⟨takeUntil (fun c => c == '#') afterPath⟩,
               fragment := ⟨dropUntil (fun c => c == '#') afterPath⟩ }

/-- Embedding of `isPdfUrl` (src/lib/pdf.ts lines 58-66): parse the URL,
lowercase the path component, test for the `.pdf` suffix; a parse failure
yields `false`. -/
def isPdfUrl (url : String) : Bool :=
  match parseURL url with
  | none => false
  | some u => sEndsWith (sLower u.pathname) ".pdf"

/-! ## Filename sanitizer (`sanitizeFilename`, src/lib/pdf.ts lines 355-373) -/

/-- Characters replaced by an underscore
(the regex `[/\\:*?"<>|]`, src/lib/pdf.ts line 357). -/
def isInvalidFileChar (c : Char) : Bool :=
  c == '/' || c == '\\' || c == ':' || c == '*' || c == '?' ||
  c == '"' || c == '<' || c == '>' || c == '|'

/-- Characters stripped from the ends by the regex `^[.\s]+|[.\s]+$`
(src/lib/pdf.ts line 360): dots and whitespace. -/
def isDotOrSpace (c : Char) : Bool := c == '.' || isJsSpace c

/-- Intermediate value of `sanitizeFilename`: invalid characters replaced,
then leading and trailing dots and spaces stripped (the state of `filename`
after src/lib/pdf.ts line 360, before truncation). -/
def sanitizeStripped (title : String) : List Char :=
  let replaced := title.data.map (fun c => if isInvalidFileChar c then '_' else c)
  ((replaced.dropWhile isDotOrSpace).reverse.dropWhile isDotOrSpace).reverse

/-- Truncation step of `sanitizeFilename` (src/lib/pdf.ts lines 363-365):
the stripped name cut to 80 characters when longer. -/
def sanitizeTruncated (title : String) : List Char :=
  let stripped := sanitizeStripped title
  if stripped.length > 80 then stripped.take 80 else stripped

/-- Embedding of `sanitizeFilename` (src/lib/pdf.ts lines 355-373). -/
def sanitizeFilename (title : String) (id : Nat) : String :=
  let truncated := sanitizeTruncated title
  if truncated.isEmpty || (jsTrim ⟨truncated⟩).data.isEmpty then
    "Reference_" ++ natRepr id
  else ⟨truncated⟩

/-! ## Document fetcher (`downloadPdf`, src/lib/pdf.ts lines 71-101) -/

/-- Outcome of the single platform `fetch` call made by `downloadPdf`.
`success` carries the response flags (`ok`, `status`, `statusText`) and the
body bytes (abstracted to a tag); `failure` carries the rejection: its
`name` property (the abort controller firing at the deadline rejects with
name `AbortError`), its message, and whether it is a `TypeError`
(the class thrown by `fetch` for transport-level failures). -/
inductive FetchOutcome
  | success (ok : Bool) (status : Nat) (statusText : String) (bytes : Nat)
  | failure (name : String) (msg : String) (isTypeError : Bool)
deriving DecidableEq

/-- Timeout armed around the fetch (src/lib/pdf.ts line 74), in
milliseconds. -/
def DOWNLOAD_TIMEOUT_MS : Nat := 90000

/-- Embedding of `downloadPdf` (src/lib/pdf.ts lines 71-101).  A non-ok
response raises inside the `try` block and is re-wrapped by the generic
branch of the `catch` (its `name` is `Error`, so neither the abort branch
nor the `TypeError` branch applies), which doubles the message prefix
exactly as the source does. -/
def downloadPdf (o : FetchOutcome) : Except String Nat :=
  match o with
  | .success ok status statusText bytes =>
    if ok then .ok bytes
    else
      .error ("Failed to download PDF: " ++
        ("Failed to download PDF: " ++ natRepr status ++ " " ++ statusText))
  | .failure name msg isTypeError =>
    if name == "AbortError" then
      .error "Failed to download PDF: Request timeout (120s exceeded)"
    else if isTypeError && sIncludes msg "fetch" then
      .error "Failed to download PDF: Network error or timeout"
    else
      .error ("Failed to download PDF: " ++ msg)

/-- Number of `fetch` calls performed by one invocation of `downloadPdf`:
the source body contains a single `fetch` with no loop around it. -/
def downloadPdfFetchCalls (_o : FetchOutcome) : Nat := 1

example : detectAccessBlocker "all fine here" "https://x.example/a" = none := by decide
example : detectAccessBlocker "Please CONFIRM you are human now" "https://x.example/a"
    = some "Publisher requires human verification (CAPTCHA)." := by decide
example : detectAccessBlocker "ok" "https://x.example/verify-me" = some urlRedirectReason := by decide
example : detectAccessBlocker "page has g-recaptcha widget" "https://x.example/a"
    = some widgetReason := by decide
example : isPdfUrl "https://example.org/paper.pdf" = true := by decide
example : isPdfUrl "https://example.org/paper.PDF?x=1" = true := by decide
example : isPdfUrl "https://example.org/paper" = false := by decide
example : isPdfUrl "not a url" = false := by decide
example : isPdfUrl "https://" = false := by decide
example : sanitizeFilename "a/b:c" 7 = "a_b_c" := by decide
example : sanitizeFilename "  ..  " 7 = "Reference_7" := by decide
example : sanitizeFilename "" 3 = "Reference_3" := by decide
example : downloadPdf (.success false 503 "Service Unavailable" 0)
    = .error "Failed to download PDF: Failed to download PDF: 503 Service Unavailable" := by rfl
example : downloadPdf (.failure "AbortError" "aborted" false)
    = .error "Failed to download PDF: Request timeout (120s exceeded)" := by rfl
example : downloadPdf (.failure "TypeError" "fetch failed" true)
    = .error "Failed to download PDF: Network error or timeout" := by rfl
example : downloadPdf (.success true 200 "OK" 42) = .ok 42 := by rfl

/-! ## Render engine adapter (`renderUrlToPdf`, src/lib/pdf.ts lines 106-350) -/

/-- Observable events of one `renderUrlToPdf` run, in program order:
browser launch, the two navigation calls (`domcontentloaded` then `load`),
fixed settle delays, the readiness poll, the content read-back, a PDF
capture call, a browser teardown, and the backoff sleep between retries. -/
inductive REv
  | launch
  | goto1
  | goto2
  | settle (ms : Nat)
  | waitReady
  | readContent
  | pdfCapture
  | browserClose
  | retrySleep (ms : Nat)
deriving DecidableEq

/-- Outcome of one `page.goto` call: success, or a rejection carrying its
message and whether the rejection is a timeout (the source catches both
kinds alike; the flag records which kind the environment produced). -/
inductive NavOutcome
  | ok
  | err (msg : String) (isTimeout : Bool)
deriving DecidableEq

/-- Outcome of one `page.pdf` call. -/
inductive PdfOutcome
  | ok (bytes : Nat)
  | err (msg : String)
deriving DecidableEq

/-- Environment for one loop iteration of `renderUrlToPdf`: the outcome of
every external call the iteration may make.  `launchFails` models
`puppeteer.launch` rejecting (no session exists then); `setupFails` models
a rejection from `newPage`/`setViewport`/`setUserAgent`/
`setRequestInterception` after the session exists.  `pageAliveAtRecovery`
models the `page && !page.isClosed()` test inside the
`ERR_BLOCKED_BY_CLIENT` recovery branch, and `pdf2` the capture it makes. -/
structure AttemptEnv where
  launchFails : Option String
  setupFails : Option String
  nav1 : NavOutcome
  nav2 : NavOutcome
  pageClosedAfterNav : Bool
  resolvedUrl : String
  content : String
  hasBlockedRequests : Bool
  blockedRequestsCount : Nat
  pdf1 : PdfOutcome
  pageAliveAtRecovery : Bool
  pdf2 : PdfOutcome

/-- Retry ceiling of `renderUrlToPdf` (src/lib/pdf.ts line 109). -/
def MAX_RETRIES : Nat := 2

/-- Embedding of the retryability test applied to the caught error message
(src/lib/pdf.ts lines 305-312). -/
def isRetryableMsg (m : String) : Bool :=
  let em := sLower m
  sIncludes em "execution context" || sIncludes em "target closed" ||
  sIncludes em "navigation" || sIncludes em "err_http2" ||
  sIncludes em "protocol error" ||
  (sIncludes em "net::" && !sIncludes em "err_blocked_by_client")

/-- Embedding of the `ERR_BLOCKED_BY_CLIENT` test on the caught error
message (src/lib/pdf.ts line 316). -/
def isBlockedByClientMsg (m : String) : Bool :=
  sIncludes (sLower m) "err_blocked_by_client"

/-- Result of the `try` block of one loop iteration
(src/lib/pdf.ts lines 113-291): the value returned or the error thrown,
the events the block performed, and whether a browser session was launched
by this iteration. -/
structure TryOut where
  res : Except String Nat
  evs : List REv
  launched : Bool

/-- Embedding of the `try` block of one iteration of `renderUrlToPdf`
(src/lib/pdf.ts lines 113-291): launch and set up the session; navigate
with the tiered waiting (`domcontentloaded` with a 3s settle and a
readiness poll; on any rejection a `load` retry with a 2s settle; on a
second rejection proceed with a warning only); fail if the page was closed
during navigation; read back the resolved URL and content and consult the
blocker detector; capture the PDF, rewriting a context-teardown capture
error and decorating a capture error when sub-resources were blocked;
close the browser and return the buffer. -/
def runTryBlock (env : AttemptEnv) : TryOut :=
  match env.launchFails with
  | some m => { res := .error m, evs := [], launched := false }
  | none =>
    match env.setupFails with
    | some m => { res := .error m, evs := [.launch], launched := true }
    | none =>
      let navEvs :=
        match env.nav1 with
        | .ok => [REv.goto1, REv.settle 3000, REv.waitReady]
        | .err _ _ =>
          match env.nav2 with
          | .ok => [REv.goto1, REv.goto2, REv.settle 2000]
          | .err _ _ => [REv.goto1, REv.goto2]
      let base := REv.launch :: navEvs
      if env.pageClosedAfterNav then
        { res := .error "Page was closed during navigation", evs := base, launched := true }
      else
        match detectAccessBlocker env.content env.resolvedUrl with
        | some r =>
          { res := .error ("[CAPTCHA_BLOCKED] " ++ r),
            evs := base ++ [.readContent], launched := true }
        | none =>
          match env.pdf1 with
          | .ok b =>
            { res := .ok b,
              evs := base ++ [.readContent, .pdfCapture, .browserClose],
              launched := true }
          | .err m =>
            let msg :=
              if sIncludes m "Execution context" || sIncludes m "Target closed" then
                "Execution context was destroyed during PDF generation"
              else if env.hasBlockedRequests then
                "PDF generation failed. Some page resources were blocked (" ++
                natRepr env.blockedRequestsCount ++
                " requests). This may indicate the page requires JavaScript or has strict blocking. Original error: " ++ m
              else m
            { res := .error msg,
              evs := base ++ [.readContent, .pdfCapture], launched := true }

/-- Outcome of one loop iteration: either the loop terminates with a value
or error (`done`), or the iteration hits `continue` after the backoff sleep
(`retry`, carrying `lastError`). -/
inductive StepOut
  | done (r : Except String Nat) (evs : List REv)
  | retry (evs : List REv) (lastErr : String)

/-- Embedding of one full loop iteration of `renderUrlToPdf`: the `try`
block followed by the `catch` block (src/lib/pdf.ts lines 292-345).  The
`catch` closes the browser when the `browser` variable is non-null (set by
this or any earlier iteration), classifies the message, runs the
`ERR_BLOCKED_BY_CLIENT` best-effort capture on the first iteration, then
either sleeps `1000 * (attempt + 1)` ms and continues, or rethrows. -/
def renderStep (env : AttemptEnv) (attempt : Nat) (browserBefore : Bool) : StepOut :=
  let t := runTryBlock env
  match t.res with
  | .ok b => .done (.ok b) t.evs
  | .error m =>
    let browserNonNull := t.launched || browserBefore
    let evs0 := t.evs ++ (if browserNonNull then [REv.browserClose] else [])
    let retryable := isRetryableMsg m
    if isBlockedByClientMsg m && attempt == 0 && env.pageAliveAtRecovery then
      match env.pdf2 with
      | .ok b => .done (.ok b) (evs0 ++ [.pdfCapture, .browserClose])
      | .err _ =>
        if retryable && attempt < MAX_RETRIES then
          .retry (evs0 ++ [.pdfCapture, .retrySleep (1000 * (attempt + 1))]) m
        else .done (.error m) (evs0 ++ [.pdfCapture])
    else
      if retryable && attempt < MAX_RETRIES then
        .retry (evs0 ++ [.retrySleep (1000 * (attempt + 1))]) m
      else .done (.error m) evs0

/-- Aggregate result of `renderUrlToPdf`: outcome, full event trace, and
the number of loop iterations executed. -/
structure RenderResult where
  out : Except String Nat
  evs : List REv
  attempts : Nat

/-- Loop of `renderUrlToPdf`, by fuel.  `browserBefore` tracks whether the
`browser` variable (declared outside the loop) is already non-null;
`last` models `lastError` for the unreachable fall-through throw
(src/lib/pdf.ts line 349). -/
def renderLoop (envs : Nat → AttemptEnv) : Nat → Nat → Bool → String → RenderResult
  | _, 0, _, last => { out := .error last, evs := [], attempts := 0 }
  | attempt, fuel + 1, browserBefore, _ =>
    match renderStep (envs attempt) attempt browserBefore with
    | .done r evs => { out := r, evs := evs, attempts := 1 }
    | .retry evs m =>
      let rest := renderLoop envs (attempt + 1) fuel
        (browserBefore || (envs attempt).launchFails.isNone) m
      { out := rest.out, evs := evs ++ rest.evs, attempts := rest.attempts + 1 }

/-- Embedding of `renderUrlToPdf` (src/lib/pdf.ts lines 106-350), given the
per-iteration environments. -/
def renderUrlToPdf (envs : Nat → AttemptEnv) : RenderResult :=
  renderLoop envs 0 (MAX_RETRIES + 1) false "Failed to render PDF after retries"

/-- State of the `browser` variable before iteration `attempt`:
non-null as soon as one earlier iteration launched. -/
def browserBeforeAt (envs : Nat → AttemptEnv) : Nat → Bool
  | 0 => false
  | a + 1 => browserBeforeAt envs a || (envs a).launchFails.isNone

/-- Session-ownership scanner over a trace: `some finalOpen` when every
launch happens with no session open, `none` on a violation.  Closing an
already-closed session is allowed (the source guards `browser.close()` with
a `try` and may close twice in the recovery path). -/
def scanSessions : List REv → Bool → Option Bool
  | [], opened => some opened
  | .launch :: t, opened => if opened then none else scanSessions t true
  | .browserClose :: t, _ => scanSessions t false
  | _ :: t, opened => scanSessions t opened

/-- A trace is session-balanced when it launches only with no session open
and ends with no session open. -/
def sessionsBalanced (evs : List REv) : Bool := scanSessions evs false == some false

/-! ## Batch processing route
(src/app/api/process-references-batch/route.ts) -/

/-- One citation entry, as produced by the extractor
(`{id, title, sourceUrl}`). -/
structure Reference where
  id : Nat
  title : String
  sourceUrl : String
deriving DecidableEq

/-- Terminal status of one processed reference. -/
inductive JobStatus
  | downloaded
  | failed
deriving DecidableEq

/-- Embedding of `ProcessReferenceResponse`
(src/app/api/process-references-batch/route.ts lines 4-12); the PDF body is
abstracted to its byte tag. -/
structure ProcessReferenceResponse where
  id : Nat
  title : String
  sourceUrl : String
  status : JobStatus
  pdfFilename : Option String
  error : Option String
  pdfBase64 : Option Nat
deriving DecidableEq

/-- Environment for one reference: the outcome of its direct fetch, were it
taken, and the render-attempt environments, were rendering taken. -/
structure RefEnv where
  fetch : FetchOutcome
  render : Nat → AttemptEnv

/-- Embedding of the `catch` block of `processSingleReference`
(src/app/api/process-references-batch/route.ts lines 53-60): strip the
`[CAPTCHA_BLOCKED]` tag (first occurrence, then trim), or rewrite
`ERR_BLOCKED_BY_CLIENT` messages to the fixed explanation. -/
def transformErrorMessage (m : String) : String :=
  if sIncludes m "[CAPTCHA_BLOCKED]" then
    jsTrim ⟨removeFirst "[CAPTCHA_BLOCKED]".data m.data⟩
  else if sIncludes m "ERR_BLOCKED_BY_CLIENT" || sIncludes m "err_blocked_by_client" then
    "Page resources were blocked (likely ads/trackers). The page may require JavaScript or have strict security policies that prevent automated access."
  else m

/-- Model of `s.split(sep)` for a one-character separator, over character
lists. -/
def splitOnChar (sep : Char) : List Char → List (List Char)
  | [] => [[]]
  | c :: t =>
    if c == sep then [] :: splitOnChar sep t
    else
      match splitOnChar sep t with
      | [] => [[c]]
      | h :: r => (c :: h) :: r

/-- Filename given to a directly downloaded document
(src/app/api/process-references-batch/route.ts lines 34-38): the last path
segment when it ends in `.pdf`, otherwise the sanitized title. -/
def directPdfFilename (ref : Reference) : String :=
  let urlPath :=
    match parseURL ref.sourceUrl with
    | some u => u.pathname
    | none => ""
  let urlFilename : String := ⟨(splitOnChar '/' urlPath.data).getLastD []⟩
  if sEndsWith urlFilename ".pdf" then
    natRepr ref.id ++ " - " ++ urlFilename
  else
    natRepr ref.id ++ " - " ++ sanitizeFilename ref.title ref.id ++ ".pdf"

/-- Failed-result constructor of the `catch` block
(src/app/api/process-references-batch/route.ts lines 62-68). -/
def failedResponse (ref : Reference) (msg : String) : ProcessReferenceResponse :=
  { id := ref.id, title := ref.title, sourceUrl := ref.sourceUrl,
    status := .failed, pdfFilename := none,
    error := some (transformErrorMessage msg), pdfBase64 := none }

/-- Direct-download branch of `processSingleReference`
(src/app/api/process-references-batch/route.ts lines 31-38). -/
def processViaDownload (ref : Reference) (fetchOutcome : FetchOutcome) :
    ProcessReferenceResponse :=
  match downloadPdf fetchOutcome with
  | .ok bytes =>
    { id := ref.id, title := ref.title, sourceUrl := ref.sourceUrl,
      status := .downloaded, pdfFilename := some (directPdfFilename ref),
      error := none, pdfBase64 := some bytes }
  | .error msg => failedResponse ref msg

/-- Render branch of `processSingleReference`
(src/app/api/process-references-batch/route.ts lines 39-43). -/
def processViaRender (ref : Reference) (renderEnvs : Nat → AttemptEnv) :
    ProcessReferenceResponse :=
  match (renderUrlToPdf renderEnvs).out with
  | .ok bytes =>
    { id := ref.id, title := ref.title, sourceUrl := ref.sourceUrl,
      status := .downloaded,
      pdfFilename := some (natRepr ref.id ++ " - " ++
        sanitizeFilename ref.title ref.id ++ ".pdf"),
      error := none, pdfBase64 := some bytes }
  | .error msg => failedResponse ref msg

/-- Embedding of `processSingleReference`
(src/app/api/process-references-batch/route.ts lines 23-70). -/
def processSingleReference (ref : Reference) (env : RefEnv) :
    ProcessReferenceResponse :=
  if isPdfUrl ref.sourceUrl then processViaDownload ref env.fetch
  else processViaRender ref env.render

/-- Pairing of each reference with its environment, by position. -/
def attachEnvs (envs : Nat → RefEnv) : Nat → List Reference → List (Reference × RefEnv)
  | _, [] => []
  | i, r :: t => (r, envs i) :: attachEnvs envs (i + 1) t

/-- Embedding of the chunked processing loop of the batch `POST` handler
(src/app/api/process-references-batch/route.ts lines 103-120): slices of
`k` references are processed and appended in order.  The loop advances its
index by `k` each pass; with `k = 0` it never terminates, which the model
renders as `none` when the fuel runs out. -/
def processChunkLoop (k : Nat) : List (Reference × RefEnv) → Nat →
    Option (List ProcessReferenceResponse)
  | pairs, 0 => if pairs.isEmpty then some [] else none
  | pairs, fuel + 1 =>
    if pairs.isEmpty then some []
    else
      match processChunkLoop k (pairs.drop k) fuel with
      | some rest =>
        some ((pairs.take k).map (fun p => processSingleReference p.1 p.2) ++ rest)
      | none => none

/-- Result of the batch `POST` handler: a 400 rejection, a
`ProcessBatchResponse` body, or divergence of the chunk loop. -/
inductive BatchPostResult
  | badRequest (error : String)
  | ok (results : List ProcessReferenceResponse) (processed failed : Nat)
  | hang
deriving DecidableEq

/-- Embedding of the batch `POST` handler
(src/app/api/process-references-batch/route.ts lines 72-136): reject an
empty list; clamp the requested concurrency to 20 and to the list length;
process every reference in chunks; report all results with the counts of
downloaded and failed items. -/
def postProcessReferencesBatch (references : List Reference) (batchSize : Nat)
    (envs : Nat → RefEnv) : BatchPostResult :=
  if references.isEmpty then .badRequest "No references provided"
  else
    let actualBatchSize := min (min batchSize 20) references.length
    match processChunkLoop actualBatchSize (attachEnvs envs 0 references)
        (references.length + 1) with
    | some results =>
      .ok results (results.countP (fun r => r.status == JobStatus.downloaded))
        (results.countP (fun r => r.status == JobStatus.failed))
    | none => .hang

/-- Length of the result list of a batch response, zero otherwise. -/
def batchResultsLength : BatchPostResult → Nat
  | .ok rs _ _ => rs.length
  | _ => 0

/-- Whether the batch handler rejected the request before processing. -/
def batchRejected : BatchPostResult → Bool
  | .badRequest _ => true
  | _ => false

/-! ## Zip creation route (src/app/api/create-zip/route.ts) -/

/-- Result of the zip `POST` handler, paired by the model with the number
of references actually handed to a worker (fetched or rendered). -/
inductive ZipPostResult
  | badRequest (error : String)
  | okZip (entries : List (String × Nat))
deriving DecidableEq

/-- Truthiness filter of the zip loop
(src/app/api/create-zip/route.ts lines 39-42): a reference with a falsy
`id` (zero), `sourceUrl`, or `title` is skipped without processing. -/
def zipRefValid (ref : Reference) : Bool :=
  ref.id != 0 && ref.sourceUrl != "" && ref.title != ""

/-- Per-reference body of the zip loop
(src/app/api/create-zip/route.ts lines 44-72): same classify / download /
render logic as `processSingleReference`, but a failure only skips the
entry. -/
def zipProcessOne (ref : Reference) (env : RefEnv) : Option (String × Nat) :=
  if isPdfUrl ref.sourceUrl then
    match downloadPdf env.fetch with
    | .ok bytes => some (directPdfFilename ref, bytes)
    | .error _ => none
  else
    match (renderUrlToPdf env.render).out with
    | .ok bytes =>
      some (natRepr ref.id ++ " - " ++ sanitizeFilename ref.title ref.id ++ ".pdf", bytes)
    | .error _ => none

/-- Sequential processing loop of the zip handler, returning the collected
entries and the number of references handed to a worker. -/
def zipLoop : List (Reference × RefEnv) → (List (String × Nat)) × Nat
  | [] => ([], 0)
  | (ref, env) :: t =>
    let rest := zipLoop t
    if zipRefValid ref then
      match zipProcessOne ref env with
      | some e => (e :: rest.1, rest.2 + 1)
      | none => (rest.1, rest.2 + 1)
    else rest

/-- Embedding of the zip `POST` handler
(src/app/api/create-zip/route.ts lines 5-122): reject an empty list, reject
more than 250 references before touching any of them, process the rest
sequentially, and reject when no entry survives.  The second component
counts the references fetched or rendered. -/
def postCreateZip (references : List Reference) (envs : Nat → RefEnv) :
    ZipPostResult × Nat :=
  if references.isEmpty then (.badRequest "No references provided", 0)
  else if references.length > 250 then
    (.badRequest "Maximum 250 files allowed per ZIP", 0)
  else
    let r := zipLoop (attachEnvs envs 0 references)
    if r.1.isEmpty then (.badRequest "No valid files to include in ZIP", r.2)
    else (.okZip r.1, r.2)

def testEnvOk : AttemptEnv :=
  { launchFails := none, setupFails := none, nav1 := .ok, nav2 := .ok,
    pageClosedAfterNav := false, resolvedUrl := "https://x.example/a",
    content := "hello", hasBlockedRequests := false, blockedRequestsCount := 0,
    pdf1 := .ok 42, pageAliveAtRecovery := false, pdf2 := .err "x" }

def testEnvNet : AttemptEnv :=
  { testEnvOk with launchFails := some "net::ERR_CONNECTION_RESET" }

def testEnvBlocked : AttemptEnv :=
  { testEnvOk with content := "please confirm you are human" }

example : (renderUrlToPdf (fun _ => testEnvOk)).out = .ok 42 := by rfl
example : (renderUrlToPdf (fun _ => testEnvOk)).attempts = 1 := by rfl
example : (renderUrlToPdf (fun _ => testEnvOk)).evs =
    [.launch, .goto1, .settle 3000, .waitReady, .readContent, .pdfCapture, .browserClose] := by decide
example : (renderUrlToPdf (fun _ => testEnvNet)).out = .error "net::ERR_CONNECTION_RESET" := by rfl
example : (renderUrlToPdf (fun _ => testEnvNet)).attempts = 3 := by rfl
example : (renderUrlToPdf (fun _ => testEnvNet)).evs =
    [.retrySleep 1000, .retrySleep 2000] := by decide
example : (renderUrlToPdf (fun _ => testEnvBlocked)).out =
    .error "[CAPTCHA_BLOCKED] Publisher requires human verification (CAPTCHA)." := by rfl
example : (renderUrlToPdf (fun _ => testEnvBlocked)).attempts = 1 := by rfl
example : sessionsBalanced (renderUrlToPdf (fun _ => testEnvBlocked)).evs = true := by decide
example : sessionsBalanced (renderUrlToPdf (fun _ => testEnvNet)).evs = true := by decide
example : processSingleReference ⟨5, "My Title", "https://x.example/page"⟩
    ⟨.failure "AbortError" "t" false, fun _ => testEnvBlocked⟩ =
    { id := 5, title := "My Title", sourceUrl := "https://x.example/page",
      status := .failed, pdfFilename := none,
      error := some "Publisher requires human verification (CAPTCHA).",
      pdfBase64 := none } := by decide
example : processSingleReference ⟨5, "My Title", "https://x.example/doc.pdf"⟩
    ⟨.success true 200 "OK" 9, fun _ => testEnvBlocked⟩ =
    { id := 5, title := "My Title", sourceUrl := "https://x.example/doc.pdf",
      status := .downloaded, pdfFilename := some "5 - doc.pdf",
      error := none, pdfBase64 := some 9 } := by decide

/-! ## Bridging lemmas for the string models -/

theorem listIsInfix_iff (n : List Char) : ∀ h : List Char, listIsInfix n h = true ↔ n <:+: h := by
  intro h
  induction h with
  | nil =>
    simp only [listIsInfix, List.isEmpty_iff]
    constructor
    · intro e; rw [e]
    · intro e; exact List.infix_nil.mp e
  | cons c t ih =>
    simp only [listIsInfix, Bool.or_eq_true, List.isPrefixOf_iff_prefix, ih,
      List.infix_cons_iff]

theorem sIncludes_iff (hay needle : String) :
    sIncludes hay needle = true ↔ needle.data <:+: hay.data := by
  exact listIsInfix_iff needle.data hay.data

theorem sIncludes_middle (pre mid post : String) :
    sIncludes (pre ++ mid ++ post) mid = true := by
  rw [sIncludes_iff]
  rw [String.data_append, String.data_append]
  exact ⟨pre.data, post.data, by simp⟩

theorem head?_dropWhile_false (p : Char → Bool) :
    ∀ (l : List Char) (c : Char), (l.dropWhile p).head? = some c → p c = false := by
  intro l
  induction l with
  | nil => intro c h; simp [List.dropWhile] at h
  | cons a t ih =>
    intro c h
    rw [List.dropWhile_cons] at h
    by_cases hp : p a = true
    · rw [if_pos hp] at h; exact ih c h
    · rw [if_neg hp] at h
      simp at h
      subst h
      simpa using hp

theorem natToCharsRec_forall (P : Char → Prop) (hP : ∀ d, d < 10 → P (digitChar d)) :
    ∀ (fuel n : Nat) (acc : List Char), (∀ c ∈ acc, P c) →
      ∀ c ∈ natToCharsRec fuel n acc, P c := by
  intro fuel
  induction fuel with
  | zero => intro n acc hacc; simpa [natToCharsRec] using hacc
  | succ f ih =>
    intro n acc hacc c hc
    rw [natToCharsRec] at hc
    by_cases hn : n < 10
    · rw [if_pos hn] at hc
      rcases List.mem_cons.mp hc with h | h
      · rw [h]; exact hP n hn
      · exact hacc c h
    · rw [if_neg hn] at hc
      refine ih (n / 10) (digitChar (n % 10) :: acc) ?_ c hc
      intro d hd
      rcases List.mem_cons.mp hd with h | h
      · rw [h]; exact hP (n % 10) (Nat.mod_lt n (by norm_num))
      · exact hacc d h

theorem natToCharsRec_acc_le (fuel : Nat) :
    ∀ (n : Nat) (acc : List Char), acc.length ≤ (natToCharsRec fuel n acc).length := by
  induction fuel with
  | zero => intro n acc; simp [natToCharsRec]
  | succ f ih =>
    intro n acc
    rw [natToCharsRec]
    by_cases hn : n < 10
    · rw [if_pos hn]; simp
    · rw [if_neg hn]
      calc acc.length ≤ (digitChar (n % 10) :: acc).length := by simp
        _ ≤ _ := ih (n / 10) _

theorem natRepr_ne_nil (n : Nat) : (natRepr n).data ≠ [] := by
  show natToCharsRec (n + 1) n [] ≠ []
  rw [natToCharsRec]
  by_cases hn : n < 10
  · rw [if_pos hn]; simp
  · rw [if_neg hn]
    intro h
    have := natToCharsRec_acc_le n (n / 10) [digitChar (n % 10)]
    rw [h] at this
    simp at this

theorem natRepr_digits (n : Nat) :
    ∀ c ∈ (natRepr n).data, ∃ d, d < 10 ∧ c = digitChar d := by
  refine natToCharsRec_forall _ ?_ (n + 1) n [] (by simp)
  intro d hd
  exact ⟨d, hd, rfl⟩

/-! ## Lemmas about the blocker detector -/

/-- Ordered pattern list with the CAPTCHA-widget markers appended as a
final row, matching the order in which the source consults them. -/
def EXTENDED_PATTERNS : List (List String × String) :=
  BLOCK_PAGE_PATTERNS ++ [(["g-recaptcha", "hcaptcha", "cf-turnstile"], widgetReason)]

theorem findBlockReason_append (l1 l2 : List (List String × String)) (h : String) :
    findBlockReason (l1 ++ l2) h =
      (findBlockReason l1 h).elim (findBlockReason l2 h) some := by
  induction l1 with
  | nil => simp [findBlockReason]
  | cons p t ih =>
    by_cases hp : patternMatches p h = true
    · simp [findBlockReason, hp]
    · simp only [Bool.not_eq_true] at hp
      simp [findBlockReason, hp, ih]

theorem detect_eq_findBlockReason (html url : String)
    (hclean : urlHasBlockMarker (sLower url) = false) :
    detectAccessBlocker html url = findBlockReason EXTENDED_PATTERNS (sLower html) := by
  rw [detectAccessBlocker, EXTENDED_PATTERNS, findBlockReason_append]
  simp only [hclean, if_false, Bool.false_eq_true]
  cases hf : findBlockReason BLOCK_PAGE_PATTERNS (sLower html) with
  | some r => simp [hf]
  | none =>
    simp only [hf, Option.elim]
    rw [findBlockReason]
    rw [findBlockReason]
    simp [patternMatches, Bool.or_assoc]

theorem findBlockReason_eq_some (h : String) (r : String) :
    ∀ l : List (List String × String),
      (findBlockReason l h = some r ↔
        ∃ l1 p l2, l = l1 ++ p :: l2 ∧ (∀ q ∈ l1, patternMatches q h = false) ∧
          patternMatches p h = true ∧ r = p.2) := by
  intro l
  induction l with
  | nil =>
    simp only [findBlockReason]
    constructor
    · intro hc; cases hc
    · rintro ⟨l1, p, l2, habs, -⟩
      exact absurd habs (by simp)
  | cons a t ih =>
    constructor
    · intro hf
      rw [findBlockReason] at hf
      by_cases ha : patternMatches a h = true
      · rw [if_pos ha] at hf
        refine ⟨[], a, t, by simp, by simp, ha, ?_⟩
        cases hf; rfl
      · rw [if_neg ha] at hf
        rcases ih.mp hf with ⟨l1, p, l2, hl, hnone, hp, hr⟩
        refine ⟨a :: l1, p, l2, by rw [hl]; rfl, ?_, hp, hr⟩
        intro q hq
        rcases List.mem_cons.mp hq with hq | hq
        · rw [hq]; simpa using ha
        · exact hnone q hq
    · rintro ⟨l1, p, l2, hl, hnone, hp, hr⟩
      cases l1 with
      | nil =>
        simp only [List.nil_append] at hl
        cases hl
        rw [findBlockReason, if_pos hp, hr]
      | cons b t1 =>
        rw [List.cons_append] at hl
        injection hl with hb ht
        rw [findBlockReason]
        have hbf : patternMatches a h = false := by
          rw [hb]
          exact hnone b (by simp)
        rw [hbf]
        simp only [Bool.false_eq_true, if_false]
        refine ih.mpr ⟨t1, p, l2, ht, ?_, hp, hr⟩
        intro q hq
        exact hnone q (List.mem_cons_of_mem b hq)

theorem findBlockReason_eq_none (h : String) :
    ∀ l : List (List String × String),
      (findBlockReason l h = none ↔ ∀ p ∈ l, patternMatches p h = false) := by
  intro l
  induction l with
  | nil => simp [findBlockReason]
  | cons a t ih =>
    by_cases ha : patternMatches a h = true
    · simp [findBlockReason, ha]
    · simp only [Bool.not_eq_true] at ha
      simp [findBlockReason, ha, ih]

theorem findBlockReason_mem (h : String) (r : String) :
    ∀ l : List (List String × String),
      findBlockReason l h = some r → r ∈ l.map Prod.snd := by
  intro l
  induction l with
  | nil => intro hc; cases hc
  | cons a t ih =>
    intro hf
    rw [findBlockReason] at hf
    by_cases ha : patternMatches a h = true
    · rw [if_pos ha] at hf
      cases hf
      simp
    · rw [if_neg ha] at hf
      simpa using Or.inr (ih hf)

/-- Every reason the detector can return. -/
def allBlockerReasons : List String :=
  urlRedirectReason :: BLOCK_PAGE_PATTERNS.map Prod.snd ++ [widgetReason]

theorem detect_mem_reasons (html url r : String)
    (hd : detectAccessBlocker html url = some r) : r ∈ allBlockerReasons := by
  rw [detectAccessBlocker] at hd
  by_cases hu : urlHasBlockMarker (sLower url) = true
  · rw [if_pos hu] at hd
    cases hd
    simp [allBlockerReasons]
  · rw [if_neg hu] at hd
    cases hf : findBlockReason BLOCK_PAGE_PATTERNS (sLower html) with
    | some s =>
      rw [hf] at hd
      cases hd
      have := findBlockReason_mem _ _ _ hf
      simp only [allBlockerReasons]
      exact List.mem_cons_of_mem _ (List.mem_append_left _ this)
    | none =>
      rw [hf] at hd
      by_cases hw : (sIncludes (sLower html) "g-recaptcha" || sIncludes (sLower html) "hcaptcha" ||
          sIncludes (sLower html) "cf-turnstile") = true
      · rw [if_pos hw] at hd
        cases hd
        simp [allBlockerReasons]
      · rw [if_neg hw] at hd
        cases hd

/-- Mechanical check over the fixed reason list: a blocked-tagged message
is never classified retryable or blocked-by-client, and the route strips
the tag back off exactly. -/
theorem blockerReasons_tame :
    ∀ r ∈ allBlockerReasons,
      isRetryableMsg ("[CAPTCHA_BLOCKED] " ++ r) = false ∧
      isBlockedByClientMsg ("[CAPTCHA_BLOCKED] " ++ r) = false ∧
      transformErrorMessage ("[CAPTCHA_BLOCKED] " ++ r) = r := by decide

/-! ## Lemmas about the render engine adapter -/

theorem runTryBlock_blocked (env : AttemptEnv) (r : String)
    (h1 : env.launchFails = none) (h2 : env.setupFails = none)
    (h3 : env.pageClosedAfterNav = false)
    (h4 : detectAccessBlocker env.content env.resolvedUrl = some r) :
    (runTryBlock env).res = .error ("[CAPTCHA_BLOCKED] " ++ r) ∧
      (runTryBlock env).launched = true := by
  rw [runTryBlock, h1, h2]
  simp only [h3, h4, Bool.false_eq_true, if_false]
  exact ⟨trivial, trivial⟩

theorem renderStep_done_error (env : AttemptEnv) (a : Nat) (bb : Bool) (m : String)
    (ht : (runTryBlock env).res = .error m)
    (h1 : isRetryableMsg m = false) (h2 : isBlockedByClientMsg m = false) :
    renderStep env a bb = .done (.error m)
      ((runTryBlock env).evs ++
        (if (runTryBlock env).launched || bb then [REv.browserClose] else [])) := by
  simp only [renderStep]
  rw [ht]
  simp [h1, h2]

theorem renderLoop_done (envs : Nat → AttemptEnv) (a fuel : Nat) (bb : Bool)
    (last : String) (r : Except String Nat) (evs : List REv)
    (h : renderStep (envs a) a bb = .done r evs) :
    renderLoop envs a (fuel + 1) bb last = { out := r, evs := evs, attempts := 1 } := by
  rw [renderLoop, h]

/-- Whether an `Except` value is a success. -/
def exceptIsOk : Except String Nat → Bool
  | .ok _ => true
  | .error _ => false

theorem scanSessions_append (l1 : List REv) : ∀ (l2 : List REv) (s : Bool),
    scanSessions (l1 ++ l2) s =
      (scanSessions l1 s).elim none (fun s1 => scanSessions l2 s1) := by
  induction l1 with
  | nil => intro l2 s; simp [scanSessions]
  | cons e t ih =>
    intro l2 s
    cases e with
    | launch =>
      cases s with
      | false => simpa [scanSessions] using ih l2 true
      | true => simp [scanSessions]
    | browserClose => simpa [scanSessions] using ih l2 false
    | goto1 => simpa [scanSessions] using ih l2 s
    | goto2 => simpa [scanSessions] using ih l2 s
    | settle ms => simpa [scanSessions] using ih l2 s
    | waitReady => simpa [scanSessions] using ih l2 s
    | readContent => simpa [scanSessions] using ih l2 s
    | pdfCapture => simpa [scanSessions] using ih l2 s
    | retrySleep ms => simpa [scanSessions] using ih l2 s

theorem scan_tryBlock (env : AttemptEnv) :
    scanSessions (runTryBlock env).evs false =
      some ((runTryBlock env).launched && !(exceptIsOk (runTryBlock env).res)) := by
  rw [runTryBlock]
  cases env.launchFails with
  | some m => simp [scanSessions, exceptIsOk]
  | none =>
    cases env.setupFails with
    | some m => simp [scanSessions, exceptIsOk]
    | none =>
      rcases h1 : env.nav1 with _ | ⟨m1, t1⟩ <;>
        [skip; rcases h2 : env.nav2 with _ | ⟨m2, t2⟩] <;>
        rcases hpc : env.pageClosedAfterNav with _ | _ <;>
        simp only [Bool.false_eq_true, if_false, if_true] <;>
        (try rcases hd : detectAccessBlocker env.content env.resolvedUrl with _ | r) <;>
        (try rcases hp : env.pdf1 with b | mp) <;>
        simp [scanSessions, exceptIsOk, scanSessions_append]

theorem scan_evs0 (env : AttemptEnv) (bb : Bool) (m : String)
    (hres : (runTryBlock env).res = .error m) :
    scanSessions ((runTryBlock env).evs ++
      (if (runTryBlock env).launched || bb then [REv.browserClose] else [])) false
      = some false := by
  rw [scanSessions_append, scan_tryBlock, hres]
  simp only [exceptIsOk, Bool.not_false, Bool.and_true, Option.elim]
  cases hl : (runTryBlock env).launched with
  | true => simp [scanSessions]
  | false => cases bb <;> simp [scanSessions]

theorem scan_step (env : AttemptEnv) (a : Nat) (bb : Bool) :
    (∀ r evs, renderStep env a bb = .done r evs → scanSessions evs false = some false) ∧
    (∀ evs m, renderStep env a bb = .retry evs m → scanSessions evs false = some false) := by
  constructor
  · intro r evs h
    simp only [renderStep] at h
    cases hres : (runTryBlock env).res with
    | ok b =>
      rw [hres] at h
      injection h with h1 h2
      rw [← h2]
      have := scan_tryBlock env
      rw [hres] at this
      simpa [exceptIsOk] using this
    | error m0 =>
      rw [hres] at h
      simp only [] at h
      split at h
      · split at h
        · injection h with h1 h2
          rw [← h2]
          rw [scanSessions_append, scan_evs0 env bb m0 hres]
          simp [scanSessions]
        · split at h
          · cases h
          · injection h with h1 h2
            rw [← h2]
            rw [scanSessions_append, scan_evs0 env bb m0 hres]
            simp [scanSessions]
      · split at h
        · cases h
        · injection h with h1 h2
          rw [← h2]
          exact scan_evs0 env bb m0 hres
  · intro evs m h
    simp only [renderStep] at h
    cases hres : (runTryBlock env).res with
    | ok b => rw [hres] at h; cases h
    | error m0 =>
      rw [hres] at h
      simp only [] at h
      split at h
      · split at h
        · cases h
        · split at h
          · injection h with h1 h2
            rw [← h1]
            rw [scanSessions_append, scan_evs0 env bb m0 hres]
            simp [scanSessions]
          · cases h
      · split at h
        · injection h with h1 h2
          rw [← h1]
          rw [scanSessions_append, scan_evs0 env bb m0 hres]
          simp [scanSessions]
        · cases h

theorem scan_loop (envs : Nat → AttemptEnv) :
    ∀ (fuel a : Nat) (bb : Bool) (last : String),
      scanSessions (renderLoop envs a fuel bb last).evs false = some false := by
  intro fuel
  induction fuel with
  | zero => intro a bb last; simp [renderLoop, scanSessions]
  | succ f ih =>
    intro a bb last
    rw [renderLoop]
    cases hstep : renderStep (envs a) a bb with
    | done r evs => simpa using (scan_step (envs a) a bb).1 r evs hstep
    | retry evs m =>
      simp only []
      rw [scanSessions_append, (scan_step (envs a) a bb).2 evs m hstep]
      simpa using ih (a + 1) (bb || (envs a).launchFails.isNone) m

theorem renderLoop_attempts_le (envs : Nat → AttemptEnv) :
    ∀ (fuel a : Nat) (bb : Bool) (last : String),
      (renderLoop envs a fuel bb last).attempts ≤ fuel := by
  intro fuel
  induction fuel with
  | zero => intro a bb last; simp [renderLoop]
  | succ f ih =>
    intro a bb last
    rw [renderLoop]
    cases hstep : renderStep (envs a) a bb with
    | done r evs => simp
    | retry evs m =>
      simp only []
      have := ih (a + 1) (bb || (envs a).launchFails.isNone) m
      omega

theorem renderStep_retry_inv (env : AttemptEnv) (a : Nat) (bb : Bool)
    (evs : List REv) (m : String) (h : renderStep env a bb = .retry evs m) :
    isRetryableMsg m = true ∧ a < MAX_RETRIES ∧
      evs.getLast? = some (REv.retrySleep (1000 * (a + 1))) ∧
      (runTryBlock env).res = .error m := by
  simp only [renderStep] at h
  cases hres : (runTryBlock env).res with
  | ok b => rw [hres] at h; cases h
  | error m0 =>
    rw [hres] at h
    simp only [] at h
    split at h
    · split at h
      · cases h
      · split at h
        · rename_i hcond
          injection h with h1 h2
          subst h1
          subst h2
          simp only [Bool.and_eq_true, decide_eq_true_eq] at hcond
          refine ⟨hcond.1, hcond.2, ?_, rfl⟩
          rw [List.getLast?_append_of_ne_nil _ (by simp)]
          rfl
        · cases h
    · split at h
      · rename_i hcond
        injection h with h1 h2
        subst h1
        subst h2
        simp only [Bool.and_eq_true, decide_eq_true_eq] at hcond
        refine ⟨hcond.1, hcond.2, ?_, rfl⟩
        rw [List.getLast?_append_of_ne_nil _ (by simp)]
        rfl
      · cases h

theorem renderLoop_retry (envs : Nat → AttemptEnv) (a fuel : Nat) (bb : Bool)
    (last : String) (evs : List REv) (m : String)
    (h : renderStep (envs a) a bb = .retry evs m) :
    renderLoop envs a (fuel + 1) bb last =
      { out := (renderLoop envs (a + 1) fuel (bb || (envs a).launchFails.isNone) m).out,
        evs := evs ++ (renderLoop envs (a + 1) fuel (bb || (envs a).launchFails.isNone) m).evs,
        attempts :=
          (renderLoop envs (a + 1) fuel (bb || (envs a).launchFails.isNone) m).attempts + 1 } := by
  rw [renderLoop, h]

theorem renderLoop_error_from_step (envs : Nat → AttemptEnv) :
    ∀ (fuel a : Nat) (last m : String),
      a + fuel = MAX_RETRIES →
      (renderLoop envs a (fuel + 1) (browserBeforeAt envs a) last).out = .error m →
      ∃ j, a ≤ j ∧ j ≤ MAX_RETRIES ∧
        (renderLoop envs a (fuel + 1) (browserBeforeAt envs a) last).attempts + a = j + 1 ∧
        ∃ evs, renderStep (envs j) j (browserBeforeAt envs j) = .done (.error m) evs := by
  intro fuel
  induction fuel with
  | zero =>
    intro a last m ha hout
    cases hstep : renderStep (envs a) a (browserBeforeAt envs a) with
    | done r evs =>
      have hL := renderLoop_done envs a 0 (browserBeforeAt envs a) last r evs hstep
      rw [hL] at hout
      simp only [] at hout
      refine ⟨a, le_refl a, by omega, ?_, evs, ?_⟩
      · rw [hL]
        simp only []
        omega
      · rw [hout] at hstep
        exact hstep
    | retry evs m0 =>
      have := (renderStep_retry_inv _ _ _ _ _ hstep).2.1
      omega
  | succ f ih =>
    intro a last m ha hout
    cases hstep : renderStep (envs a) a (browserBeforeAt envs a) with
    | done r evs =>
      have hL := renderLoop_done envs a (f + 1) (browserBeforeAt envs a) last r evs hstep
      rw [hL] at hout
      simp only [] at hout
      refine ⟨a, le_refl a, by omega, ?_, evs, ?_⟩
      · rw [hL]
        simp only []
        omega
      · rw [hout] at hstep
        exact hstep
    | retry evs m0 =>
      have hL := renderLoop_retry envs a (f + 1) (browserBeforeAt envs a) last evs m0 hstep
      have hbb : (browserBeforeAt envs a || (envs a).launchFails.isNone)
          = browserBeforeAt envs (a + 1) := rfl
      rw [hbb] at hL
      rw [hL] at hout
      simp only [] at hout
      obtain ⟨j, hj1, hj2, hj3, hstep2⟩ := ih (a + 1) m0 m (by omega) hout
      refine ⟨j, by omega, hj2, ?_, hstep2⟩
      rw [hL]
      simp only []
      omega

/-! ## Lemmas about the filename sanitizer -/

theorem prefix_head (l1 l2 : List Char) (c : Char) (hp : l1 <+: l2)
    (hh : l1.head? = some c) : l2.head? = some c := by
  rcases hp with ⟨t, rfl⟩
  cases l1 with
  | nil => cases hh
  | cons a l1 => simpa using hh

theorem sanitizeStripped_head (title : String) (c : Char)
    (hh : (sanitizeStripped title).head? = some c) : isDotOrSpace c = false := by
  rw [sanitizeStripped] at hh
  set y := (title.data.map (fun c => if isInvalidFileChar c then '_' else c)).dropWhile
    isDotOrSpace with hy
  have hpre : (y.reverse.dropWhile isDotOrSpace).reverse <+: y := by
    have hs : y.reverse.dropWhile isDotOrSpace <:+ y.reverse :=
      List.dropWhile_suffix isDotOrSpace
    have := List.reverse_prefix.mpr hs
    rwa [List.reverse_reverse] at this
  have hyh : y.head? = some c := prefix_head _ _ _ hpre hh
  exact head?_dropWhile_false isDotOrSpace _ c hyh

theorem sanitizeStripped_getLast (title : String) (c : Char)
    (hh : (sanitizeStripped title).getLast? = some c) : isDotOrSpace c = false := by
  rw [sanitizeStripped] at hh
  rw [← List.head?_reverse, List.reverse_reverse] at hh
  exact head?_dropWhile_false isDotOrSpace _ c hh

theorem sanitizeStripped_valid (title : String) :
    ∀ c ∈ sanitizeStripped title, isInvalidFileChar c = false := by
  intro c hc
  rw [sanitizeStripped] at hc
  set replaced := title.data.map (fun c => if isInvalidFileChar c then '_' else c) with hr
  have h1 : c ∈ replaced.dropWhile isDotOrSpace := by
    have hpre : ((replaced.dropWhile isDotOrSpace).reverse.dropWhile isDotOrSpace).reverse
        <+: replaced.dropWhile isDotOrSpace := by
      have hs := List.dropWhile_suffix (l := (replaced.dropWhile isDotOrSpace).reverse)
        isDotOrSpace
      have := List.reverse_prefix.mpr hs
      rwa [List.reverse_reverse] at this
    exact hpre.subset hc
  have h2 : c ∈ replaced := (List.dropWhile_suffix isDotOrSpace).subset h1
  rw [hr] at h2
  rcases List.mem_map.mp h2 with ⟨a, -, ha⟩
  by_cases hia : isInvalidFileChar a = true
  · rw [if_pos hia] at ha
    rw [← ha]
    decide
  · rw [if_neg hia] at ha
    rw [← ha]
    simpa using hia

theorem digitChar_tame :
    ∀ d : Nat, d < 10 → isInvalidFileChar (digitChar d) = false ∧
      isDotOrSpace (digitChar d) = false := by decide

theorem natRepr_chars (n : Nat) :
    ∀ c ∈ (natRepr n).data, isInvalidFileChar c = false ∧ isDotOrSpace c = false := by
  intro c hc
  rcases natRepr_digits n c hc with ⟨d, hd, rfl⟩
  exact digitChar_tame d hd

/-! ## Lemmas about the batch route -/

theorem processSingleReference_id (ref : Reference) (env : RefEnv) :
    (processSingleReference ref env).id = ref.id := by
  rw [processSingleReference]
  split
  · rw [processViaDownload]
    split <;> simp [failedResponse]
  · rw [processViaRender]
    split <;> simp [failedResponse]

theorem processSingleReference_status (ref : Reference) (env : RefEnv) :
    ((processSingleReference ref env).status = .downloaded ∧
      (processSingleReference ref env).error = none ∧
      ∃ b, (processSingleReference ref env).pdfBase64 = some b) ∨
    ((processSingleReference ref env).status = .failed ∧
      (∃ m, (processSingleReference ref env).error = some m) ∧
      (processSingleReference ref env).pdfBase64 = none) := by
  rw [processSingleReference]
  split
  · rw [processViaDownload]
    split
    · left; simp
    · right; simp [failedResponse]
  · rw [processViaRender]
    split
    · left; simp
    · right; simp [failedResponse]

theorem attachEnvs_length (envs : Nat → RefEnv) :
    ∀ (i : Nat) (refs : List Reference), (attachEnvs envs i refs).length = refs.length := by
  intro i refs
  induction refs generalizing i with
  | nil => simp [attachEnvs]
  | cons r t ih => simp [attachEnvs, ih]

theorem attachEnvs_map_fst (envs : Nat → RefEnv) :
    ∀ (i : Nat) (refs : List Reference), (attachEnvs envs i refs).map Prod.fst = refs := by
  intro i refs
  induction refs generalizing i with
  | nil => simp [attachEnvs]
  | cons r t ih => simp [attachEnvs, ih]

theorem processChunkLoop_complete (k : Nat) (hk : 1 ≤ k) :
    ∀ (fuel : Nat) (pairs : List (Reference × RefEnv)), pairs.length ≤ fuel →
      processChunkLoop k pairs fuel =
        some (pairs.map (fun p => processSingleReference p.1 p.2)) := by
  intro fuel
  induction fuel with
  | zero =>
    intro pairs hlen
    have hnil : pairs = [] := List.length_eq_zero.mp (Nat.le_zero.mp hlen)
    rw [hnil]
    rfl
  | succ f ih =>
    intro pairs hlen
    rw [processChunkLoop]
    by_cases hp : pairs.isEmpty
    · rw [if_pos hp]
      rw [List.isEmpty_iff.mp hp]
      rfl
    · rw [if_neg hp]
      have hne : pairs ≠ [] := by
        intro h0
        exact hp (by rw [h0]; rfl)
      have hlen2 : (pairs.drop k).length ≤ f := by
        rw [List.length_drop]
        have hpos : 0 < pairs.length := List.length_pos.mpr hne
        omega
      rw [ih _ hlen2]
      simp only []
      rw [← List.map_append, List.take_append_drop]

theorem postBatch_ok (references : List Reference) (batchSize : Nat) (envs : Nat → RefEnv)
    (hne : references ≠ []) (hbs : 1 ≤ batchSize) :
    postProcessReferencesBatch references batchSize envs =
      .ok ((attachEnvs envs 0 references).map (fun p => processSingleReference p.1 p.2))
        (((attachEnvs envs 0 references).map
            (fun p => processSingleReference p.1 p.2)).countP
          (fun r => r.status == JobStatus.downloaded))
        (((attachEnvs envs 0 references).map
            (fun p => processSingleReference p.1 p.2)).countP
          (fun r => r.status == JobStatus.failed)) := by
  rw [postProcessReferencesBatch]
  have hpos : 0 < references.length := List.length_pos.mpr hne
  rw [if_neg (by intro h0; rw [List.isEmpty_iff.mp h0] at hpos; exact absurd hpos (by simp))]
  have hk : 1 ≤ min (min batchSize 20) references.length := by omega
  simp only []
  rw [processChunkLoop_complete _ hk _ _ (by rw [attachEnvs_length]; omega)]

theorem getLast?_mem_of (l : List Char) (a : Char) (h : l.getLast? = some a) : a ∈ l := by
  rcases List.mem_getLast?_eq_getLast (by rw [h]; rfl : a ∈ l.getLast?) with ⟨hne, rfl⟩
  exact List.getLast_mem hne

/-! ## Claim theorems -/

/-- C8: for every content string and resolved URL, `detectAccessBlocker`
returns the redirect-to-verification reason immediately whenever the
resolved URL contains a verification / CAPTCHA / blocked marker, without
consulting the content; otherwise it returns the reason of the first
matching pattern in the ordered list (the CAPTCHA-widget markers forming
the final row); and when nothing matches it returns `none`. -/
theorem detect_contract : ∀ (html url : String),
    (urlHasBlockMarker (sLower url) = true →
      detectAccessBlocker html url = some urlRedirectReason) ∧
    (urlHasBlockMarker (sLower url) = false →
      ∀ r, (detectAccessBlocker html url = some r ↔
        ∃ l1 p l2, EXTENDED_PATTERNS = l1 ++ p :: l2 ∧
          (∀ q ∈ l1, patternMatches q (sLower html) = false) ∧
          patternMatches p (sLower html) = true ∧ r = p.2)) ∧
    (urlHasBlockMarker (sLower url) = false →
      (∀ p ∈ EXTENDED_PATTERNS, patternMatches p (sLower html) = false) →
      detectAccessBlocker html url = none) := by
  intro html url
  refine ⟨?_, ?_, ?_⟩
  · intro hm
    simp [detectAccessBlocker, hm]
  · intro hm r
    rw [detect_eq_findBlockReason html url hm]
    exact findBlockReason_eq_some (sLower html) r EXTENDED_PATTERNS
  · intro hm hnone
    rw [detect_eq_findBlockReason html url hm]
    exact (findBlockReason_eq_none (sLower html) EXTENDED_PATTERNS).mpr hnone

/-- Witness for C8 at concrete inputs: a URL carrying a marker forces the
redirect reason whatever the content says, and unmatched content yields
`none`. -/
theorem detect_contract_witness :
    detectAccessBlocker "all perfectly fine" "https://x.example/a?goto=captcha"
        = some urlRedirectReason ∧
    detectAccessBlocker "just an ordinary page" "https://x.example/a" = none := by
  exact ⟨(detect_contract "all perfectly fine" "https://x.example/a?goto=captcha").1
      (by decide),
    (detect_contract "just an ordinary page" "https://x.example/a").2.2 (by decide) (by decide)⟩

/-- C9: `downloadPdf` makes exactly one fetch attempt, bounded by a fixed
timeout between 90 and 120 seconds; the elapsed deadline (an abort) yields
the timeout error, a non-ok response yields an error naming the status, a
transport-level `TypeError` from fetch yields the network error, and an ok
response yields the body. -/
theorem downloadPdf_contract : ∀ o : FetchOutcome,
    downloadPdfFetchCalls o = 1 ∧
    (90000 ≤ DOWNLOAD_TIMEOUT_MS ∧ DOWNLOAD_TIMEOUT_MS ≤ 120000) ∧
    (∀ msg te, o = .failure "AbortError" msg te →
      downloadPdf o = .error "Failed to download PDF: Request timeout (120s exceeded)") ∧
    (∀ status statusText bytes, o = .success false status statusText bytes →
      downloadPdf o = .error ("Failed to download PDF: " ++
        ("Failed to download PDF: " ++ natRepr status ++ " " ++ statusText)) ∧
      sIncludes ("Failed to download PDF: " ++
        ("Failed to download PDF: " ++ natRepr status ++ " " ++ statusText))
        (natRepr status) = true) ∧
    (∀ name msg, o = .failure name msg true → name ≠ "AbortError" →
      sIncludes msg "fetch" = true →
      downloadPdf o = .error "Failed to download PDF: Network error or timeout") ∧
    (∀ status statusText bytes, o = .success true status statusText bytes →
      downloadPdf o = .ok bytes) := by
  intro o
  refine ⟨rfl, by decide, ?_, ?_, ?_, ?_⟩
  · rintro msg te rfl
    rfl
  · rintro status statusText bytes rfl
    refine ⟨rfl, ?_⟩
    rw [sIncludes_iff]
    refine ⟨("Failed to download PDF: " ++ "Failed to download PDF: ").data,
      (" " ++ statusText).data, ?_⟩
    simp [String.data_append, List.append_assoc]
  · rintro name msg rfl hne hf
    rw [downloadPdf]
    rw [if_neg (by simpa using hne)]
    rw [if_pos (by rw [hf]; rfl)]
  · rintro status statusText bytes rfl
    rfl

/-- Witness for C9 at concrete outcomes: an abort yields the timeout error
and an ok response yields the bytes. -/
theorem downloadPdf_contract_witness :
    downloadPdf (.failure "AbortError" "The operation was aborted" false)
        = .error "Failed to download PDF: Request timeout (120s exceeded)" ∧
    downloadPdf (.success true 200 "OK" 42) = .ok 42 := by
  exact ⟨(downloadPdf_contract (.failure "AbortError" "The operation was aborted" false)).2.2.1
      "The operation was aborted" false rfl,
    (downloadPdf_contract (.success true 200 "OK" 42)).2.2.2.2.2 200 "OK" 42 rfl⟩

/-- C3: every run of the render adapter is session-balanced: each launched
browser session is closed before the next launch and before the run
returns, whatever the outcome of every external call on every attempt. -/
theorem render_sessions_balanced : ∀ envs : Nat → AttemptEnv,
    sessionsBalanced (renderUrlToPdf envs).evs = true := by
  intro envs
  rw [sessionsBalanced, renderUrlToPdf, scan_loop]
  rfl

/-- C2: when the blocker detector fires on the first attempt, the render
adapter throws the tagged blocked error after exactly one iteration (the
tagged message is never classified retryable), and the batch route turns it
into a failed result whose error message is exactly the blocker reason. -/
theorem blocked_job_single_attempt : ∀ (envs : Nat → AttemptEnv) (reason : String)
    (ref : Reference) (env : RefEnv),
    (envs 0).launchFails = none → (envs 0).setupFails = none →
    (envs 0).pageClosedAfterNav = false →
    detectAccessBlocker (envs 0).content (envs 0).resolvedUrl = some reason →
    (renderUrlToPdf envs).out = .error ("[CAPTCHA_BLOCKED] " ++ reason) ∧
    (renderUrlToPdf envs).attempts = 1 ∧
    isRetryableMsg ("[CAPTCHA_BLOCKED] " ++ reason) = false ∧
    (isPdfUrl ref.sourceUrl = false → env.render = envs →
      (processSingleReference ref env).status = .failed ∧
      (processSingleReference ref env).error = some reason) := by
  intro envs reason ref env h1 h2 h3 h4
  have hmem := detect_mem_reasons _ _ _ h4
  obtain ⟨hret, hbc, htrans⟩ := blockerReasons_tame _ hmem
  obtain ⟨hres, -⟩ := runTryBlock_blocked (envs 0) reason h1 h2 h3 h4
  have hstep := renderStep_done_error (envs 0) 0 false _ hres hret hbc
  have hL := renderLoop_done envs 0 MAX_RETRIES false "Failed to render PDF after retries"
    _ _ hstep
  have hout : (renderUrlToPdf envs).out = .error ("[CAPTCHA_BLOCKED] " ++ reason) := by
    rw [renderUrlToPdf, hL]
  refine ⟨hout, by rw [renderUrlToPdf, hL], hret, ?_⟩
  intro hpdf hrenv
  have hproc : processSingleReference ref env =
      failedResponse ref ("[CAPTCHA_BLOCKED] " ++ reason) := by
    rw [processSingleReference, hpdf]
    simp only [Bool.false_eq_true, if_false]
    rw [processViaRender, hrenv, hout]
  rw [hproc]
  exact ⟨rfl, by rw [failedResponse]; simp [htrans]⟩

/-- Witness for C2 at a concrete environment whose first attempt loads a
page carrying a CAPTCHA phrase. -/
theorem blocked_job_single_attempt_witness :
    (renderUrlToPdf (fun _ => testEnvBlocked)).attempts = 1 ∧
    (processSingleReference ⟨3, "t", "u"⟩ ⟨.failure "E" "x" false, fun _ => testEnvBlocked⟩).status
      = .failed ∧
    (processSingleReference ⟨3, "t", "u"⟩ ⟨.failure "E" "x" false, fun _ => testEnvBlocked⟩).error
      = some "Publisher requires human verification (CAPTCHA)." := by
  have h := blocked_job_single_attempt (fun _ => testEnvBlocked)
    "Publisher requires human verification (CAPTCHA)."
    ⟨3, "t", "u"⟩ ⟨.failure "E" "x" false, fun _ => testEnvBlocked⟩
    rfl rfl rfl (by decide)
  exact ⟨h.2.1, (h.2.2.2 (by decide) rfl).1, (h.2.2.2 (by decide) rfl).2⟩

/-- C4: the render adapter runs at most `MAX_RETRIES + 1 = 3` iterations; a
retry happens only when the caught message is classified retryable and the
ceiling is not reached, and the backoff sleep before retry `a + 1` is
`1000 * (a + 1)` ms (1s, then 2s); and when the run fails, the error
returned is the error of the final iteration executed. -/
theorem render_retry_policy : ∀ envs : Nat → AttemptEnv,
    (renderUrlToPdf envs).attempts ≤ MAX_RETRIES + 1 ∧
    (∀ (env : AttemptEnv) (a : Nat) (bb : Bool) (evs : List REv) (m : String),
      renderStep env a bb = .retry evs m →
      isRetryableMsg m = true ∧ a < MAX_RETRIES ∧
        evs.getLast? = some (REv.retrySleep (1000 * (a + 1)))) ∧
    (∀ m : String, (renderUrlToPdf envs).out = .error m →
      ∃ j, j ≤ MAX_RETRIES ∧ (renderUrlToPdf envs).attempts = j + 1 ∧
        ∃ evs, renderStep (envs j) j (browserBeforeAt envs j) = .done (.error m) evs) := by
  intro envs
  refine ⟨renderLoop_attempts_le envs _ 0 false _, ?_, ?_⟩
  · intro env a bb evs m h
    have h2 := renderStep_retry_inv env a bb evs m h
    exact ⟨h2.1, h2.2.1, h2.2.2.1⟩
  · intro m hout
    have h0 : (false : Bool) = browserBeforeAt envs 0 := rfl
    rw [renderUrlToPdf, h0] at hout
    obtain ⟨j, hj0, hj2, hj3, hevs⟩ :=
      renderLoop_error_from_step envs MAX_RETRIES 0 "Failed to render PDF after retries" m
        (by omega) hout
    refine ⟨j, hj2, ?_, hevs⟩
    rw [renderUrlToPdf, h0]
    omega

/-- Witness for C4 at a concrete environment whose every attempt fails with
a retryable network error: three attempts, and the final error is the last
attempt error. -/
theorem render_retry_policy_witness :
    isRetryableMsg "net::ERR_CONNECTION_RESET" = true ∧
    (renderUrlToPdf (fun _ => testEnvNet)).attempts = 3 := by
  have h := (render_retry_policy (fun _ => testEnvNet)).2.1 testEnvNet 0 false
    ((runTryBlock testEnvNet).evs ++ [REv.retrySleep 1000]) "net::ERR_CONNECTION_RESET"
    (by rfl)
  have h3 := (render_retry_policy (fun _ => testEnvNet)).2.2 "net::ERR_CONNECTION_RESET"
    (by rfl)
  obtain ⟨j, hj, hatt, -⟩ := h3
  refine ⟨h.1, ?_⟩
  have hcomp : (renderUrlToPdf (fun _ => testEnvNet)).attempts = 3 := by rfl
  exact hcomp

def testEnvNav : AttemptEnv :=
  { testEnvOk with nav1 := .err "net::ERR_NAME_NOT_RESOLVED" false }

/-- C6 counterexample: a first-tier navigation error that is not a timeout
still escalates to the second tier (the `load` navigation is attempted),
instead of aborting the attempt. -/
theorem tier2_after_nontimeout_error :
    REv.goto2 ∈ (runTryBlock testEnvNav).evs ∧
    testEnvNav.nav1 = NavOutcome.err "net::ERR_NAME_NOT_RESOLVED" false := by
  exact ⟨by decide, rfl⟩

/-- C6 as amended: within one attempt the second navigation tier is tried
exactly when the first `goto` rejected for any reason (timeout or not), the
2s settle follows only a successful second tier, neither settle runs when
both tiers fail (the attempt proceeds with a warning only), and navigation
errors alone never abort the attempt: the content read-back still happens
whenever the page is not closed. -/
theorem navigation_tiers : ∀ env : AttemptEnv,
    env.launchFails = none → env.setupFails = none →
    ((REv.goto2 ∈ (runTryBlock env).evs) ↔ env.nav1 ≠ NavOutcome.ok) ∧
    (env.nav1 = NavOutcome.ok → REv.settle 3000 ∈ (runTryBlock env).evs ∧
      REv.goto2 ∉ (runTryBlock env).evs) ∧
    (env.nav1 ≠ NavOutcome.ok → env.nav2 = NavOutcome.ok →
      REv.settle 2000 ∈ (runTryBlock env).evs) ∧
    (env.nav1 ≠ NavOutcome.ok → env.nav2 ≠ NavOutcome.ok →
      REv.settle 3000 ∉ (runTryBlock env).evs ∧
      REv.settle 2000 ∉ (runTryBlock env).evs) ∧
    (env.pageClosedAfterNav = false → REv.readContent ∈ (runTryBlock env).evs) := by
  intro env h1 h2
  rw [runTryBlock, h1, h2]
  rcases hn1 : env.nav1 with _ | ⟨m1, t1⟩ <;>
    rcases hn2 : env.nav2 with _ | ⟨m2, t2⟩ <;>
    rcases hpc : env.pageClosedAfterNav with _ | _ <;>
    (try rcases hd : detectAccessBlocker env.content env.resolvedUrl with _ | r) <;>
    (try rcases hp : env.pdf1 with b | mp) <;>
    simp [hn1, hn2]

/-- Witness for the amended C6 at a concrete environment with a non-timeout
first-tier error and a successful second tier. -/
theorem navigation_tiers_witness :
    REv.goto2 ∈ (runTryBlock testEnvNav).evs ∧
    REv.settle 2000 ∈ (runTryBlock testEnvNav).evs := by
  have h := navigation_tiers testEnvNav rfl rfl
  exact ⟨h.1.mpr (by decide), h.2.2.1 (by decide) rfl⟩

/-- C1: the batch endpoint, on a non-empty reference list and a positive
requested concurrency, returns one result per input reference (ids in
input order, hence each id exactly as often as it occurs in the input), and
every result is terminal: downloaded with no error, or failed carrying an
error message — whatever the outcome of every download and render. -/
theorem batch_complete : ∀ (references : List Reference) (batchSize : Nat)
    (envs : Nat → RefEnv),
    references ≠ [] → 1 ≤ batchSize →
    ∃ results processed failed,
      postProcessReferencesBatch references batchSize envs = .ok results processed failed ∧
      results.length = references.length ∧
      results.map (fun r => r.id) = references.map (fun r => r.id) ∧
      ∀ res ∈ results,
        (res.status = .downloaded ∧ res.error = none) ∨
        (res.status = .failed ∧ ∃ msg, res.error = some msg) := by
  intro refs batchSize envs hne hbs
  refine ⟨_, _, _, postBatch_ok refs batchSize envs hne hbs, ?_, ?_, ?_⟩
  · rw [List.length_map, attachEnvs_length]
  · rw [List.map_map]
    have hfun : ((fun r : ProcessReferenceResponse => r.id) ∘
        (fun p : Reference × RefEnv => processSingleReference p.1 p.2)) =
        fun p : Reference × RefEnv => p.1.id := by
      funext p
      exact processSingleReference_id p.1 p.2
    rw [hfun]
    have h2 : (fun p : Reference × RefEnv => p.1.id) =
        (fun r : Reference => r.id) ∘ Prod.fst := rfl
    rw [h2, ← List.map_map, attachEnvs_map_fst]
  · intro res hres
    rcases List.mem_map.mp hres with ⟨p, hp, rfl⟩
    rcases processSingleReference_status p.1 p.2 with ⟨ha, hb, -⟩ | ⟨ha, ⟨mm, hb⟩, -⟩
    · exact Or.inl ⟨ha, hb⟩
    · exact Or.inr ⟨ha, mm, hb⟩

def envFail : RefEnv :=
  ⟨.failure "E" "boom" false, fun _ => { testEnvOk with launchFails := some "boom" }⟩

/-- Witness for C1: one reference whose render fails still yields exactly
one result. -/
theorem batch_complete_witness :
    batchResultsLength (postProcessReferencesBatch [⟨1, "t", "u"⟩] 10 (fun _ => envFail)) = 1 := by
  obtain ⟨rs, p, f, h1, h2, -, -⟩ :=
    batch_complete [⟨1, "t", "u"⟩] 10 (fun _ => envFail) (by simp) (by omega)
  rw [h1]
  simpa [batchResultsLength] using h2

def refs260 : List Reference := (List.range 260).map (fun i => ⟨i + 1, "T", "u"⟩)

/-- C7 counterexample: 260 references submitted as one batch to the
batch-processing endpoint are not rejected — the endpoint runs all 260 jobs
and returns 260 results; only the zip-creation endpoint enforces a 250
ceiling. -/
theorem batch_no_ceiling_at_260 :
    batchRejected (postProcessReferencesBatch refs260 10 (fun _ => envFail)) = false ∧
    batchResultsLength (postProcessReferencesBatch refs260 10 (fun _ => envFail)) = 260 ∧
    refs260.length = 260 := by
  have hlen : refs260.length = 260 := by simp [refs260]
  have hne : refs260 ≠ [] := by
    intro h0
    rw [h0] at hlen
    exact absurd hlen (by simp)
  have h := postBatch_ok refs260 10 (fun _ => envFail) hne (by omega)
  refine ⟨by rw [h]; rfl, ?_, hlen⟩
  rw [h]
  show ((attachEnvs (fun _ => envFail) 0 refs260).map
    (fun p => processSingleReference p.1 p.2)).length = 260
  rw [List.length_map, attachEnvs_length, hlen]

/-- C7 as amended: the 250-entry batch ceiling is enforced by the
zip-creation endpoint, which rejects an oversized list before touching any
reference (zero references handed to a worker) with the error naming the
ceiling; the batch-processing endpoint enforces no ceiling and returns one
result per reference. -/
theorem zip_ceiling : ∀ (references : List Reference) (envs : Nat → RefEnv) (batchSize : Nat),
    (references.length > 250 →
      postCreateZip references envs = (.badRequest "Maximum 250 files allowed per ZIP", 0)) ∧
    (references ≠ [] → 1 ≤ batchSize →
      batchRejected (postProcessReferencesBatch references batchSize envs) = false ∧
      batchResultsLength (postProcessReferencesBatch references batchSize envs)
        = references.length) := by
  intro refs envs batchSize
  constructor
  · intro hgt
    rw [postCreateZip]
    have hne : refs.isEmpty = false := by
      cases refs with
      | nil => simp at hgt
      | cons a t => rfl
    rw [hne]
    simp only [Bool.false_eq_true, if_false]
    rw [if_pos hgt]
  · intro hne hbs
    rw [postBatch_ok refs batchSize envs hne hbs]
    refine ⟨rfl, ?_⟩
    show ((attachEnvs envs 0 refs).map (fun p => processSingleReference p.1 p.2)).length
      = refs.length
    rw [List.length_map, attachEnvs_length]

/-- Witness for the amended C7: a 260-entry list is rejected by the
zip-creation endpoint with zero references processed. -/
theorem zip_ceiling_witness :
    postCreateZip refs260 (fun _ => envFail)
      = (.badRequest "Maximum 250 files allowed per ZIP", 0) := by
  exact (zip_ceiling refs260 (fun _ => envFail) 10).1 (by simp [refs260])

/-- C5 counterexample: a malformed URL is not rejected — `isPdfUrl` returns
`false` and the reference is dispatched to the render worker, which here
renders it successfully. -/
theorem malformed_url_dispatched :
    isPdfUrl "not a url" = false ∧ parseURL "not a url" = none ∧
    processSingleReference ⟨1, "t", "not a url"⟩ ⟨.failure "E" "x" false, fun _ => testEnvOk⟩ =
      { id := 1, title := "t", sourceUrl := "not a url", status := .downloaded,
        pdfFilename := some "1 - t.pdf", error := none, pdfBase64 := some 42 } := by
  exact ⟨rfl, rfl, by decide⟩

/-- C5 as amended: classification is pure and total; a URL is classified
as a direct document exactly when it parses and its path component ends in
`.pdf` case-insensitively; every other URL — well-formed or malformed — is
sent down the render path: a malformed URL is not reported as invalid and
does reach the render worker. -/
theorem classify_contract : ∀ url : String,
    (isPdfUrl url = true ↔
      ∃ u, parseURL url = some u ∧ sEndsWith (sLower u.pathname) ".pdf" = true) ∧
    (∀ (ref : Reference) (env : RefEnv), ref.sourceUrl = url →
      isPdfUrl url = false →
      processSingleReference ref env = processViaRender ref env.render) ∧
    (parseURL url = none → isPdfUrl url = false) := by
  intro url
  refine ⟨?_, ?_, ?_⟩
  · rw [isPdfUrl]
    cases hp : parseURL url with
    | none => simp
    | some u =>
      constructor
      · intro he
        exact ⟨u, rfl, he⟩
      · rintro ⟨v, hv, he⟩
        injection hv with hv
        rw [hv]
        exact he
  · rintro ref env rfl hfalse
    rw [processSingleReference, hfalse]
    simp
  · intro hnone
    rw [isPdfUrl, hnone]

/-- Witness for the amended C5: a direct-document URL, and a malformed URL
flowing into the render path. -/
theorem classify_contract_witness :
    isPdfUrl "https://example.org/Paper.PDF" = true ∧
    isPdfUrl "not a url" = false ∧
    processSingleReference ⟨2, "x", "not a url"⟩ ⟨.failure "E" "x" false, fun _ => testEnvOk⟩ =
      processViaRender ⟨2, "x", "not a url"⟩ (fun _ => testEnvOk) := by
  refine ⟨?_, ?_, ?_⟩
  · exact (classify_contract "https://example.org/Paper.PDF").1.mpr
      ⟨{ scheme := "https", host := "example.org", pathname := "/Paper.PDF",
         search := "", fragment := "" }, by decide, by decide⟩
  · exact (classify_contract "not a url").2.2 (by decide)
  · exact (classify_contract "not a url").2.1 ⟨2, "x", "not a url"⟩
      ⟨.failure "E" "x" false, fun _ => testEnvOk⟩ rfl
      ((classify_contract "not a url").2.2 (by decide))

def longTitle : String := ⟨List.replicate 79 'a' ++ [' ', 'b']⟩

/-- C10 counterexample: a title whose sanitized form is 81 characters long
is truncated to 80, leaving a trailing space in the returned filename. -/
theorem sanitize_trailing_space :
    (sanitizeFilename longTitle 1).data.getLast? = some ' ' ∧
    (sanitizeFilename longTitle 1).data.length = 80 := by
  constructor <;> decide

theorem sanitizeTruncated_prefixOf (title : String) :
    sanitizeTruncated title <+: sanitizeStripped title := by
  rw [sanitizeTruncated]
  split
  · exact List.take_prefix 80 (sanitizeStripped title)
  · exact List.prefix_refl (sanitizeStripped title)

theorem sanitizeTruncated_le (title : String) : (sanitizeTruncated title).length ≤ 80 := by
  rw [sanitizeTruncated]
  split
  · rw [List.length_take]; omega
  · rename_i h; omega

theorem sanitizeTruncated_eq_of_le (title : String)
    (h : (sanitizeStripped title).length ≤ 80) :
    sanitizeTruncated title = sanitizeStripped title := by
  rw [sanitizeTruncated]
  rw [if_neg (by omega)]

/-- C10 as amended: the sanitized filename is never empty, contains none of
the reserved characters, never exceeds 80 characters (for any id of at most
70 digits), and never starts with a dot or space; it can end with a dot or
space only when truncation occurred — whenever the stripped name fits in 80
characters the result has no trailing dot or space either; and a title that
reduces to nothing yields exactly the `Reference_<id>` fallback. -/
theorem sanitizeFilename_contract : ∀ (title : String) (id : Nat),
    (sanitizeFilename title id).data ≠ [] ∧
    ((natRepr id).data.length ≤ 70 → (sanitizeFilename title id).data.length ≤ 80) ∧
    (∀ c ∈ (sanitizeFilename title id).data, isInvalidFileChar c = false) ∧
    (∀ c, (sanitizeFilename title id).data.head? = some c → isDotOrSpace c = false) ∧
    ((sanitizeStripped title).length ≤ 80 →
      ∀ c, (sanitizeFilename title id).data.getLast? = some c → isDotOrSpace c = false) ∧
    (sanitizeStripped title = [] →
      sanitizeFilename title id = "Reference_" ++ natRepr id) := by
  intro title id
  by_cases hcond : ((sanitizeTruncated title).isEmpty ||
      (jsTrim ⟨sanitizeTruncated title⟩).data.isEmpty) = true
  · have hres : sanitizeFilename title id = "Reference_" ++ natRepr id := by
      rw [sanitizeFilename]
      rw [if_pos hcond]
    rw [hres]
    have hRchars : ∀ c ∈ ("Reference_" : String).data, isInvalidFileChar c = false := by decide
    refine ⟨?_, ?_, ?_, ?_, ?_, fun _ => rfl⟩
    · rw [String.data_append]
      simp
    · intro hlen
      rw [String.data_append, List.length_append]
      have h10 : ("Reference_" : String).data.length = 10 := rfl
      omega
    · intro c hc
      rw [String.data_append] at hc
      rcases List.mem_append.mp hc with hc | hc
      · exact hRchars c hc
      · exact (natRepr_chars id c hc).1
    · intro c hc
      rw [String.data_append] at hc
      have hR : (("Reference_" : String).data ++ (natRepr id).data).head? = some 'R' := rfl
      rw [hR] at hc
      injection hc with hc
      rw [← hc]
      decide
    · intro hstlen c hc
      rw [String.data_append] at hc
      rw [List.getLast?_append_of_ne_nil _ (natRepr_ne_nil id)] at hc
      exact (natRepr_chars id c (getLast?_mem_of _ _ hc)).2
  · have hres : sanitizeFilename title id = ⟨sanitizeTruncated title⟩ := by
      rw [sanitizeFilename]
      rw [if_neg hcond]
    simp only [Bool.or_eq_true, not_or, Bool.not_eq_true] at hcond
    rw [hres]
    have hdata : (⟨sanitizeTruncated title⟩ : String).data = sanitizeTruncated title := rfl
    rw [hdata]
    have hne : sanitizeTruncated title ≠ [] := by
      intro h0
      rw [List.isEmpty_iff.symm] at h0
      rw [h0] at hcond
      exact absurd hcond.1 (by simp)
    refine ⟨hne, fun _ => sanitizeTruncated_le title, ?_, ?_, ?_, ?_⟩
    · intro c hc
      exact sanitizeStripped_valid title c ((sanitizeTruncated_prefixOf title).subset hc)
    · intro c hc
      exact sanitizeStripped_head title c
        (prefix_head _ _ _ (sanitizeTruncated_prefixOf title) hc)
    · intro hstlen c hc
      rw [sanitizeTruncated_eq_of_le title hstlen] at hc
      exact sanitizeStripped_getLast title c hc
    · intro hst
      exfalso
      apply hne
      rw [sanitizeTruncated_eq_of_le title (by rw [hst]; simp), hst]

/-- Witness for the amended C10 at concrete inputs. -/
theorem sanitizeFilename_contract_witness :
    (sanitizeFilename "a/b:c" 7).data.length ≤ 80 ∧
    sanitizeFilename "  ..  " 7 = "Reference_" ++ natRepr 7 := by
  exact ⟨(sanitizeFilename_contract "a/b:c" 7).2.1 (by decide),
    (sanitizeFilename_contract "  ..  " 7).2.2.2.2.2 (by decide)⟩
